import Mathlib

/-!
Verification development for the salon economic simulator
(`Tools/salon_simulator.py`): a shallow embedding of the day-cycle engine
(`simulate_day`), the progression engine (`try_upgrade`) and the `Loan`,
`Staff` and advertisement entities, together with theorems settling the
frozen specification claims.

Modelling conventions:
* Python `int` is `ℤ` (or `ℕ` for values that are structurally counts).
* Python `float` values are idealised as exact rationals and represented by
  the unnormalised fraction type `Frac` below, whose operations are plain
  integer arithmetic (Python float rounding is abstracted away; every
  constant in the source is an exact decimal).  `int(x)` on a float is
  truncation toward zero (`Frac.trunc`), Python `//` on ints is floor
  division (`Int.fdiv`).
* Randomness (`random.random`, `random.randint`, `random.choice`) is made
  explicit: every random draw becomes a field of an oracle record that is
  a parameter of `simulate_day`; `random.choice` over a list is modelled as
  an oracle index taken modulo the list length.
* Mutation is explicit state passing: `simulate_day` and `try_upgrade` map a
  `SalonState` to a new `SalonState` plus their reported result.
-/

/-- Unnormalised fraction `num / den` (with `den` kept positive by every
value the embedded program constructs); the model of a Python float. -/
structure Frac where
  num : ℤ
  den : ℤ
deriving DecidableEq, Repr

/-- Embed an integer as a float (Python implicit int→float conversion). -/
def Frac.ofInt (n : ℤ) : Frac := ⟨n, 1⟩

/-- Float multiplication. -/
def Frac.mul (a b : Frac) : Frac := ⟨a.num * b.num, a.den * b.den⟩

/-- Float subtraction. -/
def Frac.sub (a b : Frac) : Frac := ⟨a.num * b.den - b.num * a.den, a.den * b.den⟩

/-- Float (true) division.  Signs are arranged so that the denominator of
the result stays positive; division by zero (a Python `ZeroDivisionError`)
is given the junk value `0/1` and never occurs on the executions the claims
are about. -/
def Frac.div (a b : Frac) : Frac :=
  if b.num = 0 then ⟨0, 1⟩
  else if b.num < 0 then ⟨-(a.num * b.den), a.den * (-b.num)⟩
  else ⟨a.num * b.den, a.den * b.num⟩

/-- Float strict comparison `a < b` (valid for positive denominators). -/
def Frac.ltB (a b : Frac) : Bool := a.num * b.den < b.num * a.den

/-- Float comparison `a ≤ b` (valid for positive denominators). -/
def Frac.leB (a b : Frac) : Bool := a.num * b.den ≤ b.num * a.den

/-- Python `max` on two floats (returns the first argument on ties). -/
def Frac.pyMax (a b : Frac) : Frac := if Frac.ltB a b then b else a

/-- Python `int(x)` on a float: truncation toward zero (valid for positive
denominators; `Int `/` ` is Euclidean division, which agrees with floor
division for positive divisors). -/
def Frac.trunc (a : Frac) : ℤ :=
  if a.num < 0 then -((-a.num) / a.den) else a.num / a.den

/-- The rational value represented by a fraction (used only to connect the
executable code model with the specification-level statements in `ℚ`). -/
def Frac.toRat (a : Frac) : ℚ := (a.num : ℚ) / (a.den : ℚ)

/-! ### Enumerations and static staff tables -/

/-- `StaffRank` enum from the source. -/
inductive StaffRank where
  | student
  | newbie
  | regular
  | veteran
  | pro
deriving DecidableEq, Repr

/-- Numeric value of each `StaffRank` enum member in the source. -/
def StaffRank.val : StaffRank → ℕ
  | .student => 0
  | .newbie => 1
  | .regular => 2
  | .veteran => 3
  | .pro => 4

/-- `WealthLevel` enum from the source. -/
inductive WealthLevel where
  | poorest
  | poor
  | normal
  | rich
  | richest
deriving DecidableEq, Repr

/-- `STAFF_SUCCESS_RATE` table ((wealth, staff rank) → success probability).
The table is total over both enums, so the source's `.get(…, 0.5)` default
never fires. -/
def STAFF_SUCCESS_RATE : WealthLevel → StaffRank → Frac
  | .poorest, _ => ⟨100, 100⟩
  | .poor, .student => ⟨80, 100⟩
  | .poor, _ => ⟨100, 100⟩
  | .normal, .student => ⟨60, 100⟩
  | .normal, .newbie => ⟨80, 100⟩
  | .normal, _ => ⟨100, 100⟩
  | .rich, .student => ⟨40, 100⟩
  | .rich, .newbie => ⟨60, 100⟩
  | .rich, .regular => ⟨80, 100⟩
  | .rich, _ => ⟨100, 100⟩
  | .richest, .student => ⟨20, 100⟩
  | .richest, .newbie => ⟨40, 100⟩
  | .richest, .regular => ⟨60, 100⟩
  | .richest, .veteran => ⟨80, 100⟩
  | .richest, .pro => ⟨100, 100⟩

/-- `STAFF_REVIEW_MULTIPLIER` table. -/
def STAFF_REVIEW_MULTIPLIER : StaffRank → Frac
  | .student => ⟨90, 100⟩
  | .newbie => ⟨95, 100⟩
  | .regular => ⟨100, 100⟩
  | .veteran => ⟨105, 100⟩
  | .pro => ⟨110, 100⟩

/-- `STAFF_DAILY_SALARY` table. -/
def STAFF_DAILY_SALARY : StaffRank → ℤ
  | .student => 150
  | .newbie => 200
  | .regular => 300
  | .veteran => 450
  | .pro => 700

/-- `Staff` dataclass: a single mutable `rank` field. -/
structure Staff where
  rank : StaffRank
deriving DecidableEq, Repr

/-! ### Customer rank table (extended 30-rank model) -/

/-- One row of `CUSTOMER_RANKS`:
(rank name, tier, sublevel, plan price, budget min, budget max, star req). -/
structure CustomerRank where
  name : String
  tier : String
  sublevel : ℕ
  price : ℤ
  budget_min : ℤ
  budget_max : ℤ
  star_req : ℕ
deriving DecidableEq, Repr

/-- `CUSTOMER_RANKS` table (30 rows, source order). -/
def CUSTOMER_RANKS : List CustomerRank :=
  [⟨"Poorest1", "Poorest", 1, 30, 15, 23, 1⟩,
   ⟨"Poorest2", "Poorest", 2, 30, 23, 30, 2⟩,
   ⟨"Poorest3", "Poorest", 3, 40, 30, 37, 3⟩,
   ⟨"Poorest4", "Poorest", 4, 40, 37, 45, 4⟩,
   ⟨"Poorest5", "Poorest", 5, 50, 45, 52, 5⟩,
   ⟨"Poorest6", "Poorest", 6, 50, 52, 60, 6⟩,
   ⟨"Poor1", "Poor", 1, 80, 60, 70, 7⟩,
   ⟨"Poor2", "Poor", 2, 80, 70, 80, 8⟩,
   ⟨"Poor3", "Poor", 3, 80, 80, 90, 9⟩,
   ⟨"Poor4", "Poor", 4, 70, 90, 100, 10⟩,
   ⟨"Poor5", "Poor", 5, 70, 100, 110, 11⟩,
   ⟨"Poor6", "Poor", 6, 70, 110, 120, 12⟩,
   ⟨"Normal1", "Normal", 1, 100, 120, 130, 13⟩,
   ⟨"Normal2", "Normal", 2, 100, 130, 140, 14⟩,
   ⟨"Normal3", "Normal", 3, 120, 140, 150, 15⟩,
   ⟨"Normal4", "Normal", 4, 120, 150, 160, 16⟩,
   ⟨"Normal5", "Normal", 5, 135, 160, 180, 17⟩,
   ⟨"Normal6", "Normal", 6, 135, 180, 210, 18⟩,
   ⟨"Rich1", "Rich", 1, 240, 210, 240, 19⟩,
   ⟨"Rich2", "Rich", 2, 240, 240, 270, 20⟩,
   ⟨"Rich3", "Rich", 3, 200, 270, 300, 21⟩,
   ⟨"Rich4", "Rich", 4, 200, 300, 330, 22⟩,
   ⟨"Rich5", "Rich", 5, 320, 330, 350, 23⟩,
   ⟨"Rich6", "Rich", 6, 320, 350, 410, 24⟩,
   ⟨"Richest1", "Richest", 1, 470, 410, 470, 25⟩,
   ⟨"Richest2", "Richest", 2, 470, 470, 520, 26⟩,
   ⟨"Richest3", "Richest", 3, 470, 520, 580, 27⟩,
   ⟨"Richest4", "Richest", 4, 560, 580, 630, 28⟩,
   ⟨"Richest5", "Richest", 5, 560, 630, 690, 29⟩,
   ⟨"Richest6", "Richest", 6, 560, 690, 750, 30⟩]

/-- `TIER_GRADE_REQUIREMENT` dict (total over the five tier names used by
`CUSTOMER_RANKS`; other keys would be a Python `KeyError` and are given a
junk value). -/
def TIER_GRADE_REQUIREMENT : String → ℕ
  | "Poorest" => 1
  | "Poor" => 2
  | "Normal" => 3
  | "Rich" => 4
  | "Richest" => 5
  | _ => 0

/-- The `tier_to_wealth` mapping built inline in `simulate_day`
(`.get(tier, WealthLevel.POOREST)` default). -/
def tier_to_wealth : String → WealthLevel
  | "Poorest" => .poorest
  | "Poor" => .poor
  | "Normal" => .normal
  | "Rich" => .rich
  | "Richest" => .richest
  | _ => .poorest

/-! ### Grade, review, advertisement, tool, item and loan tables -/

/-- One row of `GRADE_CONFIG`. -/
structure GradeCfg where
  upgrade_cost : ℤ
  beds : ℤ
  staff_slots : ℕ
  rent : ℤ
  required_stars : ℕ
  attraction_cap : ℤ
  max_customers : ℤ
  facility_cost : ℤ
deriving DecidableEq, Repr

/-- `GRADE_CONFIG` dict, keyed by grade 1..7.  Any other key is a Python
`KeyError` in the source; it is given an all-zero junk row here and never
reached from the states the claims quantify over. -/
def GRADE_CONFIG : ℕ → GradeCfg
  | 1 => ⟨0, 1, 4, 100, 1, 100, 18, 0⟩
  | 2 => ⟨5000, 2, 5, 300, 5, 250, 36, 1000⟩
  | 3 => ⟨20000, 4, 7, 800, 10, 400, 79, 9000⟩
  | 4 => ⟨80000, 6, 9, 1500, 15, 600, 124, 35000⟩
  | 5 => ⟨250000, 8, 11, 2500, 20, 800, 172, 110000⟩
  | 6 => ⟨800000, 10, 13, 4000, 25, 1200, 286, 100000⟩
  | 7 => ⟨2000000, 10, 13, 6000, 30, 1200, 286, 0⟩
  | _ => ⟨0, 0, 0, 0, 0, 0, 0, 0⟩

/-- `MAX_GRADE` constant. -/
def MAX_GRADE : ℕ := 7

/-- `REVIEW_THRESHOLDS` dict as a key-ascending association list
(star level → cumulative review threshold). -/
def REVIEW_THRESHOLDS : List (ℕ × ℤ) :=
  [(1, 0), (2, 180), (3, 430), (4, 770), (5, 1200),
   (6, 1800), (7, 2500), (8, 3400), (9, 4500), (10, 5600),
   (11, 7100), (12, 9000), (13, 11200), (14, 13800), (15, 16400),
   (16, 20000), (17, 24500), (18, 29800), (19, 35700), (20, 42700),
   (21, 52500), (22, 63000), (23, 75000), (24, 90000), (25, 107000),
   (26, 129000), (27, 154000), (28, 182000), (29, 214000), (30, 250000)]

/-- One row of `AD_CONFIG`. -/
structure AdCfg where
  cost : ℤ
  attraction_boost : ℤ
  duration : ℤ
  decay : ℤ
  star_req : ℕ
deriving DecidableEq, Repr

/-- `AD_CONFIG` dict (source insertion order). -/
def AD_CONFIG : List (String × AdCfg) :=
  [("none", ⟨0, 0, 0, 0, 1⟩),
   ("free_sns", ⟨0, 5, 3, 1, 1⟩),
   ("flyer", ⟨1000, 15, 5, 3, 4⟩),
   ("paid_sns", ⟨3000, 30, 4, 5, 7⟩),
   ("magazine", ⟨8000, 50, 5, 8, 10⟩),
   ("train_poster", ⟨15000, 80, 5, 12, 14⟩),
   ("tv_cm", ⟨60000, 150, 5, 25, 17⟩),
   ("billboard", ⟨120000, 200, 5, 30, 20⟩),
   ("video_ad", ⟨40000, 100, 4, 20, 24⟩),
   ("influencer", ⟨200000, 250, 5, 40, 27⟩)]

/-- Decay amount of an advertisement type (`AD_CONFIG[type]["decay"]`). -/
def adDecayOf (t : String) : ℤ :=
  ((AD_CONFIG.lookup t).getD ⟨0, 0, 0, 0, 1⟩).decay

/-- A Python dict key, distinguishing `str` and `int` keys.
Python `k in d` compares keys with `==`, and an `int` never equals a `str`. -/
inductive PyKey where
  | s (v : String)
  | i (v : ℤ)
deriving DecidableEq, BEq, Repr

/-- One row of `TOOL_CONFIG`. -/
structure ToolCfg where
  ttype : String
  cost : ℤ
  time_reduction : Frac
  star_req : ℕ
deriving DecidableEq, Repr

/-- `TOOL_CONFIG` dict.  All of its keys are tool-name strings; `try_upgrade`
probes it with the integer key `next_grade`, which therefore never matches. -/
def TOOL_CONFIG : List (PyKey × ToolCfg) :=
  [(.s "RustyShaver", ⟨"shaver", 250, ⟨0, 10⟩, 1⟩),
   (.s "SmoothRayFace", ⟨"face", 500, ⟨0, 10⟩, 1⟩),
   (.s "SmoothRayBody", ⟨"body", 500, ⟨0, 10⟩, 3⟩),
   (.s "TheShaver", ⟨"shaver", 500, ⟨5, 100⟩, 6⟩),
   (.s "SmoothRayBodyPro", ⟨"body", 1000, ⟨10, 100⟩, 7⟩),
   (.s "SmoothRayFacePro", ⟨"face", 1000, ⟨10, 100⟩, 9⟩),
   (.s "PremiumShaver", ⟨"shaver", 500, ⟨10, 100⟩, 11⟩),
   (.s "SmoothRayBodyProMax", ⟨"body", 1500, ⟨20, 100⟩, 13⟩),
   (.s "SmoothRayFaceProMax", ⟨"face", 1500, ⟨20, 100⟩, 16⟩),
   (.s "SmoothRayBodyUltra", ⟨"body", 3000, ⟨30, 100⟩, 19⟩),
   (.s "SmoothRayFaceUltra", ⟨"face", 3000, ⟨30, 100⟩, 21⟩),
   (.s "ContinuousLaser", ⟨"dual", 10000, ⟨40, 100⟩, 23⟩),
   (.s "NuSmoothRay", ⟨"dual", 8000, ⟨45, 100⟩, 24⟩),
   (.s "SmoothRayOmega", ⟨"dual", 15000, ⟨60, 100⟩, 27⟩)]

/-- One row of `ITEM_CONFIG`. -/
structure ItemCfg where
  itype : String
  cost : ℤ
  price : ℤ
  review_bonus : ℤ
  star_req : ℕ
deriving DecidableEq, Repr

/-- `ITEM_CONFIG` dict (source insertion order). -/
def ITEM_CONFIG : List (String × ItemCfg) :=
  [("NumbingCreamC", ⟨"reception", 10, 15, 0, 1⟩),
   ("ServiceTicket", ⟨"reception", 10, 0, 5, 4⟩),
   ("NumbingCreamB", ⟨"reception", 20, 35, 0, 7⟩),
   ("StressBall", ⟨"reception", 30, 0, 3, 10⟩),
   ("VIPServiceTicket", ⟨"reception", 100, 0, 10, 14⟩),
   ("LaughingGas", ⟨"reception", 140, 200, 0, 17⟩),
   ("NumbingCreamA", ⟨"reception", 25, 45, 0, 20⟩),
   ("SensitiveGel", ⟨"reception", 60, 120, 0, 23⟩),
   ("PlatinumServiceTicket", ⟨"reception", 300, 0, 20, 26⟩),
   ("RelaxAroma", ⟨"reception", 150, 300, 0, 28⟩),
   ("AfterCareSet", ⟨"register", 10, 25, 0, 1⟩),
   ("Candy", ⟨"register", 5, 0, 2, 1⟩),
   ("StampCard", ⟨"register", 10, 0, 2, 2⟩),
   ("MoistureLotion", ⟨"register", 15, 35, 0, 3⟩),
   ("MoistureCream", ⟨"register", 20, 45, 0, 4⟩),
   ("Coupon", ⟨"register", 10, 0, 2, 5⟩),
   ("MoistureMask", ⟨"register", 35, 75, 0, 7⟩),
   ("Towel", ⟨"register", 15, 0, 3, 8⟩),
   ("Serum", ⟨"register", 25, 60, 0, 11⟩),
   ("BronzeGift", ⟨"register", 40, 0, 10, 12⟩),
   ("PremiumCream", ⟨"register", 50, 140, 0, 13⟩),
   ("PremiumLotion", ⟨"register", 40, 120, 0, 15⟩),
   ("VIPStamp", ⟨"register", 30, 0, 4, 17⟩),
   ("PlatinumSet", ⟨"register", 250, 400, 0, 19⟩),
   ("SilverGift", ⟨"register", 200, 0, 20, 20⟩),
   ("PlatinumStamp", ⟨"register", 100, 0, 6, 22⟩),
   ("GoldGift", ⟨"register", 300, 0, 30, 25⟩),
   ("LuxurySet", ⟨"register", 300, 500, 0, 26⟩),
   ("CoolingGelC", ⟨"treatment", 20, 0, 0, 1⟩),
   ("CoolingGelB", ⟨"treatment", 50, 0, 0, 6⟩),
   ("IcePack", ⟨"treatment", 30, 0, 0, 9⟩),
   ("CoolingGelA", ⟨"treatment", 100, 0, 0, 14⟩)]

/-- One row of `LOAN_CONFIG`. -/
structure LoanCfg where
  max_amount : ℤ
  daily_rate : Frac
  term_days : ℤ
  grade_req : ℕ
deriving DecidableEq, Repr

/-- `LOAN_CONFIG` dict (source insertion order). -/
def LOAN_CONFIG : List (String × LoanCfg) :=
  [("starter", ⟨10000, ⟨5, 1000⟩, 5, 1⟩),
   ("business", ⟨50000, ⟨5, 1000⟩, 10, 2⟩),
   ("expert", ⟨150000, ⟨1, 100⟩, 8, 3⟩),
   ("premium", ⟨500000, ⟨12, 1000⟩, 10, 4⟩),
   ("elite", ⟨2000000, ⟨15, 1000⟩, 10, 5⟩)]

/-- `MAX_ACTIVE_LOANS` constant. -/
def MAX_ACTIVE_LOANS : ℕ := 3

/-! ### Loan entity -/

/-- `Loan` dataclass after `__post_init__` has run. -/
structure Loan where
  loan_type : String
  principal : ℤ
  daily_rate : Frac
  term_days : ℤ
  remaining_principal : ℤ
  remaining_days : ℤ
  accrued_interest : ℤ
deriving DecidableEq, Repr

/-- `Loan(loan_type, principal, daily_rate, term_days)` constructor together
with `__post_init__` (remaining principal/days initialised, no interest). -/
def mkLoan (t : String) (principal : ℤ) (rate : Frac) (term : ℤ) : Loan :=
  { loan_type := t, principal := principal, daily_rate := rate, term_days := term,
    remaining_principal := principal, remaining_days := term, accrued_interest := 0 }

/-- `Loan.accrue_daily_interest`: adds `int(remaining_principal * daily_rate)`
to the accrued interest; returns the updated loan and the interest amount. -/
def Loan.accrue_daily_interest (l : Loan) : Loan × ℤ :=
  let daily_interest := Frac.trunc (Frac.mul (Frac.ofInt l.remaining_principal) l.daily_rate)
  ({ l with accrued_interest := l.accrued_interest + daily_interest }, daily_interest)

/-- `Loan.get_minimum_payment` (Python `//` is floor division). -/
def Loan.get_minimum_payment (l : Loan) : ℤ :=
  if l.remaining_days ≤ 0 then l.remaining_principal + l.accrued_interest
  else Int.fdiv l.remaining_principal l.remaining_days + l.accrued_interest

/-- `Loan.is_paid_off`. -/
def Loan.is_paid_off (l : Loan) : Bool := l.remaining_principal ≤ 0

/-- `Loan.make_payment(amount)`: returns the updated loan and the cash paid. -/
def Loan.make_payment (l : Loan) (amount : ℤ) : Loan × ℤ :=
  if l.remaining_principal ≤ 0 then (l, 0)
  else
    let la := (Loan.accrue_daily_interest l).1
    let min_payment := Loan.get_minimum_payment la
    let actual0 := if 0 < amount then max min_payment amount else min_payment
    if la.accrued_interest ≤ actual0 then
      let interest_paid := la.accrued_interest
      let actual1 := actual0 - la.accrued_interest
      let principal_paid := min actual1 la.remaining_principal
      ({ la with accrued_interest := 0,
                 remaining_principal := la.remaining_principal - principal_paid,
                 remaining_days := la.remaining_days - 1 },
       interest_paid + principal_paid)
    else
      ({ la with accrued_interest := la.accrued_interest - actual0,
                 remaining_days := la.remaining_days - 1 },
       actual0)

/-- Repeated minimum payments: `payN l n` is the loan after `n` calls of
`make_payment()` with no extra amount. -/
def payN (l : Loan) : ℕ → Loan
  | 0 => l
  | n + 1 => payN (Loan.make_payment l 0).1 n

/-- The outstanding balance `remainingPrincipal + accruedInterest`. -/
def sumPA (l : Loan) : ℤ := l.remaining_principal + l.accrued_interest

/-! ### Establishment state -/

/-- An active advertisement instance
(`{"type": …, "remaining": …, "current_boost": …}`). -/
structure ActiveAd where
  ad_type : String
  remaining : ℤ
  current_boost : ℤ
deriving DecidableEq, Repr

/-- `SalonState` dataclass.  `tool_grade` is an attribute the source sets
dynamically in `try_upgrade` and never reads; it is modelled as a field
initialised to 0. -/
structure SalonState where
  grade : ℕ
  money : ℤ
  cumulative_review : ℤ
  star_level : ℕ
  attraction_level : ℤ
  day : ℕ
  staff : List Staff
  loans : List Loan
  active_ads : List ActiveAd
  total_revenue : ℤ
  total_expenses : ℤ
  customers_served : ℕ
  tool_grade : ℕ
deriving DecidableEq, Repr

/-- The state built by `SalonSimulator.__init__`: the dataclass defaults plus
the initial `REGULAR` staff member. -/
def initial_state : SalonState :=
  { grade := 1, money := 1000, cumulative_review := 0, star_level := 1,
    attraction_level := 50, day := 1, staff := [⟨.regular⟩], loans := [],
    active_ads := [], total_revenue := 0, total_expenses := 0,
    customers_served := 0, tool_grade := 0 }

/-- `SalonState.get_total_time_reduction`: best time reduction among tools
unlocked at the current star level. -/
def get_total_time_reduction (s : SalonState) : Frac :=
  TOOL_CONFIG.foldl
    (fun acc p =>
      if p.2.star_req ≤ s.star_level ∧ Frac.ltB acc p.2.time_reduction then p.2.time_reduction
      else acc)
    ⟨0, 10⟩

/-- `SalonState.get_available_items(item_type)`: items of the given type
unlocked at the current star level, in table order. -/
def get_available_items (s : SalonState) (t : String) : List (String × ItemCfg) :=
  ITEM_CONFIG.filter (fun p => p.2.itype = t ∧ p.2.star_req ≤ s.star_level)

/-- `SalonState.get_current_customer_rank`: the last `CUSTOMER_RANKS` row
whose tier grade requirement and star requirement are met (first row as the
fallback). -/
def get_current_customer_rank (s : SalonState) : CustomerRank :=
  CUSTOMER_RANKS.foldl
    (fun best r =>
      if TIER_GRADE_REQUIREMENT r.tier ≤ s.grade ∧ r.star_req ≤ s.star_level then r
      else best)
    (CUSTOMER_RANKS.headD ⟨"Poorest1", "Poorest", 1, 30, 15, 23, 1⟩)

/-- `SalonState.get_max_customers(operating_time)`:
`int(base_max * (operating_time / 600.0))`. -/
def get_max_customers (s : SalonState) (operating_time : ℤ) : ℤ :=
  Frac.trunc (Frac.mul (Frac.ofInt (GRADE_CONFIG s.grade).max_customers)
    (Frac.div (Frac.ofInt operating_time) (Frac.ofInt 600)))

/-- `SalonState.update_star_rating`: the star level of the highest threshold
not exceeding the cumulative review (thresholds scanned in descending key
order; the star level is left unchanged when no threshold matches). -/
def update_star_rating (cum : ℤ) (star : ℕ) : ℕ :=
  match (REVIEW_THRESHOLDS.reverse).find? (fun p => p.2 ≤ cum) with
  | some p => p.1
  | none => star

/-! ### Day-cycle engine -/

/-- Stable insertion sort, descending by a `Frac` key (the model of Python's
stable `sort(key=…, reverse=True)` / `sorted(…, key=lambda x: -…)`). -/
def insertDescBy (key : α → Frac) (a : α) : List α → List α
  | [] => [a]
  | b :: t => if Frac.leB (key a) (key b) then b :: insertDescBy key a t else a :: b :: t

/-- Sort a list descending by a `Frac` key, stably. -/
def sortDescBy (key : α → Frac) (l : List α) : List α :=
  l.foldl (fun acc a => insertDescBy key a acc) []

/-- `_select_best_ad`: build the efficiency-scored list of unlocked,
non-excluded ads, sort descending by score and pick among the top 3;
`choiceIdx` is the oracle for `random.choice` (taken mod the list length). -/
def select_best_ad (star : ℕ) (choiceIdx : ℕ) (exclude : List String) : Option String :=
  let avail := AD_CONFIG.foldl
    (fun acc (p : String × AdCfg) =>
      if p.1 = "none" ∨ p.1 ∈ exclude then acc
      else if p.2.star_req ≤ star then
        let eff : Frac :=
          if p.2.cost = 0 then ⟨100, 1⟩
          else Frac.mul (Frac.div (Frac.ofInt (p.2.attraction_boost * p.2.duration))
            (Frac.ofInt p.2.cost)) (Frac.ofInt 100)
        acc ++ [(p.1, eff)]
      else acc) []
  if avail = [] then none
  else
    let srt := sortDescBy (fun x => x.2) avail
    let top := srt.take (min 3 srt.length)
    some (top.getD (choiceIdx % top.length) ("", ⟨0, 1⟩)).1

/-- Step 1 of `simulate_day`: accumulate each active ad's current boost,
apply the per-type decay, decrement remaining days, and drop ads that are
expired or fully decayed.  Returns the surviving ads and the boost total. -/
def ad_decay_step (decayOf : String → ℤ) (ads : List ActiveAd) : List ActiveAd × ℤ :=
  let total := ads.foldl (fun acc a => acc + a.current_boost) 0
  let upd := ads.map (fun a =>
    { a with current_boost := a.current_boost - decayOf a.ad_type,
             remaining := a.remaining - 1 })
  (upd.filter (fun a => ¬(a.remaining ≤ 0 ∨ a.current_boost ≤ 0)), total)

/-- Appending a freshly purchased ad instance and crediting its boost to the
day's total (the purchase lines of `simulate_day`'s ad loop). -/
def purchase_ad (name : String) (duration boost : ℤ) (ads : List ActiveAd) (total : ℤ) :
    List ActiveAd × ℤ :=
  (ads ++ [⟨name, duration, boost⟩], total + boost)

/-- Accumulator of the ad-purchasing `while` loop. -/
structure AdPurchaseState where
  ads : List ActiveAd
  types : List String
  total_boost : ℤ
  expense_ad : ℤ
  new_ad : Option String
  iter : ℕ
deriving Repr

/-- Step 2 of `simulate_day`: the ad-purchasing loop (`while len < 3` with
its three exits).  `frac09` is the precomputed `attraction_ratio` and
`choice` the oracle for the random pick inside `_select_best_ad`; the loop
appends at most `fuel` ads (each iteration purchases or exits, so fuel 4 is
never exhausted when starting below 3 ads). -/
def ad_purchase_loop (star : ℕ) (money : ℤ) (attraction_frac : Frac)
    (choice : ℕ → ℕ) : ℕ → AdPurchaseState → AdPurchaseState
  | 0, st => st
  | fuel + 1, st =>
    if 3 ≤ st.ads.length then st
    else if Frac.leB ⟨9, 10⟩ attraction_frac ∧ 1 ≤ st.ads.length then st
    else
      match select_best_ad star (choice st.iter) st.types with
      | none => st
      | some name =>
        let cfg := (AD_CONFIG.lookup name).getD ⟨0, 0, 0, 0, 1⟩
        if Frac.leB (Frac.ofInt cfg.cost) (Frac.mul (Frac.ofInt money) ⟨2, 10⟩) ∨ cfg.cost = 0 then
          let pr := purchase_ad name cfg.duration cfg.attraction_boost st.ads st.total_boost
          ad_purchase_loop star money attraction_frac choice fuel
            { ads := pr.1, types := st.types ++ [name], total_boost := pr.2,
              expense_ad := st.expense_ad + cfg.cost,
              new_ad := if st.new_ad = none then some name else st.new_ad,
              iter := st.iter + 1 }
        else st

/-- The random draws consumed while serving one customer. -/
structure CustomerDraw where
  budget : ℤ
  staffIdx : ℕ
  successRoll : Frac
  recIdx : ℕ
  regIdx : ℕ
  baseRoll : Frac
  baseMid : ℤ
  baseLow : ℤ
  failReview : ℤ
deriving Repr

/-- All random draws of one simulated day. -/
structure DayOracle where
  adChoice : ℕ → ℕ
  variance : ℤ
  customer : ℕ → CustomerDraw

/-- Accumulator of the customer service loop.  The review ledger is only
ever summed in the source, so it is carried as its sum. -/
structure CustState where
  processed : ℕ
  angry : ℕ
  customers : ℕ
  revenue : ℤ
  expense_items : ℤ
  reviews_sum : ℤ
deriving DecidableEq, Repr

/-- One iteration of the capacity-limited service loop. -/
def customer_step (s : SalonState) (capacity : ℤ) (d : CustomerDraw) (c : CustState) :
    CustState :=
  if capacity ≤ (c.processed : ℤ) then
    { c with reviews_sum := c.reviews_sum + (-50), angry := c.angry + 1 }
  else
    let rank := get_current_customer_rank s
    let customer_payment := rank.price + d.budget
    let customer_wealth := tier_to_wealth rank.tier
    let st := s.staff.getD (d.staffIdx % s.staff.length) ⟨.regular⟩
    let mult := STAFF_REVIEW_MULTIPLIER st.rank
    let c := { c with processed := c.processed + 1, customers := c.customers + 1 }
    if Frac.ltB d.successRoll (STAFF_SUCCESS_RATE customer_wealth st.rank) then
      let c := { c with revenue := c.revenue + customer_payment }
      let rec_items := get_available_items s "reception"
      let c :=
        if rec_items.length = 0 then c
        else
          let it := (rec_items.getD (d.recIdx % rec_items.length) ("", ⟨"", 0, 0, 0, 1⟩)).2
          { c with expense_items := c.expense_items + it.cost,
                   revenue := c.revenue + it.price,
                   reviews_sum := c.reviews_sum +
                     Frac.trunc (Frac.mul (Frac.ofInt it.review_bonus) mult) }
      let reg_items := get_available_items s "register"
      let c :=
        if reg_items.length = 0 then c
        else
          let it := (reg_items.getD (d.regIdx % reg_items.length) ("", ⟨"", 0, 0, 0, 1⟩)).2
          { c with expense_items := c.expense_items + it.cost,
                   revenue := c.revenue + it.price,
                   reviews_sum := c.reviews_sum +
                     Frac.trunc (Frac.mul (Frac.ofInt it.review_bonus) mult) }
      let base_review : ℤ :=
        if Frac.ltB d.baseRoll ⟨80, 100⟩ then 50
        else if Frac.ltB d.baseRoll ⟨95, 100⟩ then d.baseMid
        else d.baseLow
      { c with reviews_sum := c.reviews_sum +
          Frac.trunc (Frac.mul (Frac.ofInt base_review) mult) }
    else
      { c with reviews_sum := c.reviews_sum +
          Frac.trunc (Frac.mul (Frac.ofInt d.failReview) mult) }

/-- The feedback update of `simulate_day`:
`attraction = max(10, min(attraction + int((avg/5) * grade), cap))` where
`avg` is the day's review total divided by the customers served (0 if none).
`int(…)` truncates toward zero. -/
def feedback_update (attraction : ℤ) (grade : ℕ) (cap : ℤ)
    (total_review : ℤ) (daily_customers : ℕ) : ℤ :=
  let avg : Frac :=
    if 0 < daily_customers then Frac.div (Frac.ofInt total_review) (Frac.ofInt daily_customers)
    else Frac.ofInt 0
  let attraction_change := Frac.trunc (Frac.mul (Frac.div avg (Frac.ofInt 5)) (Frac.ofInt grade))
  max 10 (min (attraction + attraction_change) cap)

/-- The flat day-result record returned by `simulate_day`. -/
structure DayResult where
  day : ℕ
  grade : ℕ
  stars : ℕ
  revenue : ℤ
  expenses : ℤ
  net : ℤ
  money : ℤ
  expense_ad : ℤ
  expense_rent : ℤ
  expense_staff : ℤ
  expense_loan : ℤ
  expense_items : ℤ
  staff_count : ℕ
  active_loans : ℕ
  new_ad : Option String
  active_ads_count : ℕ
  ad_boost : ℤ
  customers : ℕ
  max_customers : ℤ
  attraction_level : ℤ
  attraction_cap : ℤ
  today_review : ℤ
  review_total : ℤ
deriving DecidableEq, Repr

/-- Run-level configuration (`SalonSimulator.__init__` options). -/
structure SimConfig where
  operating_time : ℤ := 450
  avg_treatment_time : ℤ := 15
  use_loans : Bool := false
deriving DecidableEq, Repr

/-- `SalonSimulator.simulate_day`, with all random draws supplied by the
oracle `o`.  Returns the updated state and the day-result record. -/
def simulate_day (cfg : SimConfig) (o : DayOracle) (s : SalonState) :
    SalonState × DayResult :=
  let cap := (GRADE_CONFIG s.grade).attraction_cap
  let dec := ad_decay_step adDecayOf s.active_ads
  let attraction_frac := Frac.div (Frac.ofInt s.attraction_level) (Frac.ofInt cap)
  let p := ad_purchase_loop s.star_level s.money attraction_frac o.adChoice 4
    { ads := dec.1, types := (dec.1).map (fun a => a.ad_type), total_boost := dec.2,
      expense_ad := 0, new_ad := none, iter := 0 }
  let total_ad_boost := p.total_boost
  let expense_rent : ℤ := if s.day % 3 = 0 then (GRADE_CONFIG s.grade).rent else 0
  let expense_staff : ℤ := (s.staff.map (fun st => STAFF_DAILY_SALARY st.rank)).sum
  let pay := s.loans.map (fun l => Loan.make_payment l 0)
  let expense_loan : ℤ := (pay.map (fun q => q.2)).sum
  let loans1 := (pay.map (fun q => q.1)).filter (fun l => ¬ Loan.is_paid_off l)
  let daily_expenses := p.expense_ad + expense_rent + expense_staff + expense_loan
  let effective_attraction :=
    max 10 (min (s.attraction_level + total_ad_boost + o.variance) cap)
  let max_cust := get_max_customers s cfg.operating_time
  let expected := (Frac.trunc (Frac.mul (Frac.ofInt max_cust)
    (Frac.div (Frac.ofInt effective_attraction) (Frac.ofInt cap)))).toNat
  let staff_beds : ℤ := min (GRADE_CONFIG s.grade).beds (s.staff.length : ℤ)
  let effective_treatment_time := Frac.pyMax (Frac.ofInt 1)
    (Frac.mul (Frac.ofInt cfg.avg_treatment_time)
      (Frac.sub (Frac.ofInt 1) (get_total_time_reduction s)))
  let daily_capacity := Frac.trunc (Frac.mul
    (Frac.div (Frac.ofInt cfg.operating_time) effective_treatment_time)
    (Frac.ofInt staff_beds))
  let cst := (List.range expected).foldl
    (fun c i => customer_step s daily_capacity (o.customer i) c) ⟨0, 0, 0, 0, 0, 0⟩
  let total_review := cst.reviews_sum
  let att2 := feedback_update s.attraction_level s.grade cap total_review cst.customers
  let cum2 := max 0 (s.cumulative_review + total_review)
  let star2 := update_star_rating cum2 s.star_level
  let net := cst.revenue - daily_expenses
  let s2 : SalonState :=
    { s with active_ads := p.ads, loans := loans1, attraction_level := att2,
             cumulative_review := cum2, star_level := star2,
             money := s.money + net,
             total_revenue := s.total_revenue + cst.revenue,
             total_expenses := s.total_expenses + daily_expenses,
             customers_served := s.customers_served + cst.customers,
             day := s.day + 1 }
  (s2,
   { day := s2.day - 1, grade := s2.grade, stars := star2, revenue := cst.revenue,
     expenses := daily_expenses, net := net, money := s2.money,
     expense_ad := p.expense_ad, expense_rent := expense_rent,
     expense_staff := expense_staff, expense_loan := expense_loan,
     expense_items := cst.expense_items, staff_count := s.staff.length,
     active_loans := (loans1.filter (fun l => 0 < l.remaining_days)).length,
     new_ad := p.new_ad, active_ads_count := p.ads.length,
     ad_boost := total_ad_boost, customers := cst.customers,
     max_customers := max_cust, attraction_level := att2, attraction_cap := cap,
     today_review := total_review, review_total := cum2 })

/-! ### Progression engine -/

/-- One loan as reported in `loans_taken`. -/
structure LoanTaken where
  ltype : String
  amount : ℤ
  term : ℤ
deriving DecidableEq, Repr

/-- The `loan_info` record returned by a financed upgrade. -/
structure LoanInfo where
  loans : List LoanTaken
  total : ℤ
deriving DecidableEq, Repr

/-- The tool-cost base `try_upgrade` computes before multiplying by the bed
count: the source sums `TOOL_CONFIG[next_grade]` tool costs when the integer
key `next_grade` is in `TOOL_CONFIG`, but `TOOL_CONFIG` is keyed by tool-name
strings, so the membership test is always false and the sum contributes 0
(the dead branch is modelled by its value, 0). -/
def upgrade_tool_cost_base (next_grade : ℕ) : ℤ :=
  if TOOL_CONFIG.any (fun p => p.1 == PyKey.i (next_grade : ℤ)) then 0 else 0

/-- The `staff_rank_by_grade` dict of `try_upgrade`
(`.get(next_grade, StaffRank.NEWBIE)` default). -/
def staff_rank_by_grade : ℕ → StaffRank
  | 1 => .student
  | 2 => .student
  | 3 => .newbie
  | 4 => .regular
  | 5 => .veteran
  | 6 => .pro
  | 7 => .pro
  | _ => .newbie

/-- The committed part of a successful upgrade: advance the grade, deduct the
upgrade cost and the (bed-multiplied) tool cost, record the tool grade,
promote every staff member in place to the new grade's rank and append new
staff at that rank until the roster reaches the new slot count. -/
def apply_upgrade (s : SalonState) (next : ℕ) : SalonState :=
  let c := GRADE_CONFIG next
  let hire := staff_rank_by_grade next
  let staff1 := s.staff.map (fun st => { st with rank := hire })
  let staff2 := staff1 ++ List.replicate (c.staff_slots - staff1.length) ⟨hire⟩
  { s with grade := next,
           money := s.money - c.upgrade_cost - upgrade_tool_cost_base next * c.beds,
           tool_grade := next,
           staff := staff2 }

/-- Accumulator of the financing loop of `try_upgrade`; `done` records that a
`break` was executed (later products are not considered). -/
structure FinanceState where
  money : ℤ
  loans : List Loan
  taken : List LoanTaken
  borrowed : ℤ
  done : Bool
deriving Repr

/-- One iteration of the financing loop: skip products whose type is active
or whose grade requirement is unmet; break once
`money + total_borrowed ≥ total_cost` (note: `money` already contains the
borrowed principal) or once the loan-slot limit is reached; otherwise borrow
the product's full `max_amount`. -/
def finance_step (grade : ℕ) (total_cost : ℤ) (active_types : List String)
    (st : FinanceState) (p : String × LoanCfg) : FinanceState :=
  if st.done then st
  else if p.1 ∈ active_types then st
  else if grade < p.2.grade_req then st
  else if total_cost ≤ st.money + st.borrowed then { st with done := true }
  else if MAX_ACTIVE_LOANS ≤ active_types.length + st.taken.length then { st with done := true }
  else
    { st with money := st.money + p.2.max_amount,
              borrowed := st.borrowed + p.2.max_amount,
              loans := st.loans ++ [mkLoan p.1 p.2.max_amount p.2.daily_rate p.2.term_days],
              taken := st.taken ++ [⟨p.1, p.2.max_amount, p.2.term_days⟩] }

/-- `LOAN_CONFIG` sorted descending by `max_amount`
(`sorted(LOAN_CONFIG.items(), key=lambda x: -x[1]["max_amount"])`). -/
def LOAN_CONFIG_SORTED : List (String × LoanCfg) :=
  sortDescBy (fun p => Frac.ofInt p.2.max_amount) LOAN_CONFIG

/-- `SalonSimulator.try_upgrade`: returns
`(upgraded, loan_info, updated state)`. -/
def try_upgrade (cfg : SimConfig) (s : SalonState) :
    Bool × Option LoanInfo × SalonState :=
  if MAX_GRADE ≤ s.grade then (false, none, s)
  else
    let next := s.grade + 1
    let c := GRADE_CONFIG next
    if s.star_level < c.required_stars then (false, none, s)
    else
      let tool_cost := upgrade_tool_cost_base next * c.beds
      let total_cost := c.upgrade_cost + tool_cost
      if s.money < total_cost then
        if cfg.use_loans then
          let active_types :=
            (s.loans.filter (fun l => ¬ Loan.is_paid_off l)).map (fun l => l.loan_type)
          if MAX_ACTIVE_LOANS ≤ active_types.length then (false, none, s)
          else
            let fin := LOAN_CONFIG_SORTED.foldl (finance_step s.grade total_cost active_types)
              ⟨s.money, s.loans, [], 0, false⟩
            if fin.money < total_cost then
              (false, none, { s with money := fin.money, loans := fin.loans })
            else
              (true, some ⟨fin.taken, fin.borrowed⟩,
               apply_upgrade { s with money := fin.money, loans := fin.loans } next)
        else (false, none, s)
      else (true, none, apply_upgrade s next)

/-! ### Reachable states -/

/-- States reachable from the freshly initialised simulator by any
interleaving of simulated days (under any random outcomes and any run
configuration) and upgrade attempts. -/
inductive Reachable : SalonState → Prop where
  | init : Reachable initial_state
  | day (cfg : SimConfig) (o : DayOracle) (s : SalonState) :
      Reachable s → Reachable (simulate_day cfg o s).1
  | upgrade (cfg : SimConfig) (s : SalonState) :
      Reachable s → Reachable (try_upgrade cfg s).2.2

/-! ### Specification-side definitions (claim vocabulary) -/

/-- `makePayment` as the specification describes it (claim C5): accrue
`floor(remainingPrincipal × dailyRate)`, pay `actual = max(minimumPayment(),
amount)`, allocate interest-first, cap the principal part at the remaining
principal, decrement the day counter, return the cash applied.  Stated with
mathematical floor (`Int.floor` on `ℚ`, `Int.fdiv` for the floored
quotient), to be compared with the source-derived `Loan.make_payment`. -/
def make_payment_spec (l : Loan) (amount : ℤ) : Loan × ℤ :=
  if Loan.is_paid_off l then (l, 0)
  else
    let accrual := ⌊(l.remaining_principal : ℚ) * l.daily_rate.toRat⌋
    let a1 := l.accrued_interest + accrual
    let min_payment :=
      if 0 < l.remaining_days then Int.fdiv l.remaining_principal l.remaining_days + a1
      else l.remaining_principal + a1
    let actual := max min_payment amount
    let interest_paid := min actual a1
    let principal_paid := min (actual - interest_paid) l.remaining_principal
    ({ l with accrued_interest := a1 - interest_paid,
              remaining_principal := l.remaining_principal - principal_paid,
              remaining_days := l.remaining_days - 1 },
     interest_paid + principal_paid)

/-- The feedback update as claim C7 states it: the attraction change is the
mathematical floor `⌊(avg/5) × grade⌋` (also for negative averages), to be
compared with the source-derived `feedback_update`, which truncates toward
zero. -/
def feedback_update_floor (attraction : ℤ) (grade : ℕ) (cap : ℤ)
    (total_review : ℤ) (daily_customers : ℕ) : ℤ :=
  let avg : ℚ := if 0 < daily_customers then (total_review : ℚ) / (daily_customers : ℚ) else 0
  max 10 (min (attraction + ⌊avg / 5 * (grade : ℚ)⌋) cap)

/-! ### Concrete inputs for counterexamples and witnesses -/

/-- A run configuration with financing enabled. -/
def cfg_loans : SimConfig := { use_loans := true }

/-- A run configuration with financing disabled (the defaults). -/
def cfg_noloans : SimConfig := {}

/-- An outstanding `expert` loan (as borrowed by a previous financing). -/
def expert_loan : Loan := mkLoan "expert" 150000 ⟨1, 100⟩ 8

/-- A grade-3 state that exposes the financing-loop early exit: 15 stars,
25000 money (G4 costs 80000), one unpaid `expert` loan, so `premium` and
`elite` are grade-locked, `expert` is type-blocked, and the loop can only
consider `business` (50000) and `starter` (10000). -/
def state_c2 : SalonState :=
  { initial_state with grade := 3, money := 25000, star_level := 15,
                       cumulative_review := 16400, loans := [expert_loan] }

/-- The state `state_c2` after the failed financing attempt: the `business`
principal was disbursed, the upgrade still failed. -/
def state_c2_after : SalonState :=
  { state_c2 with money := 75000,
                  loans := [expert_loan, mkLoan "business" 50000 ⟨5, 1000⟩ 10] }

/-- A grade-1 state ready to upgrade: 5 stars and exactly the 5000 the G2
upgrade costs. -/
def state_up1 : SalonState :=
  { initial_state with star_level := 5, money := 5000, cumulative_review := 1200 }

/-- A small fresh loan (principal 3 below the 5-day term), the C4
counterexample input. -/
def loan_c4 : Loan := mkLoan "starter" 3 ⟨5, 1000⟩ 5

/-- A program-realistic fresh `starter` loan (witness input). -/
def loan_w : Loan := mkLoan "starter" 10000 ⟨5, 1000⟩ 5

/-- A paid-off loan carrying leftover accrued interest: remaining principal
0 and accrued interest 5, both nonnegative (the C10 counterexample input). -/
def loan_c10 : Loan := { mkLoan "starter" 0 ⟨5, 1000⟩ 5 with accrued_interest := 5 }

/-- The per-customer draws of the C7 counterexample day: the customer is
served successfully, draws the bonus-free reception and register items, and
lands in the 5% base-review branch with a −7 review. -/
def draw_c7 : CustomerDraw :=
  { budget := 20, staffIdx := 0, successRoll := ⟨1, 2⟩, recIdx := 0, regIdx := 0,
    baseRoll := ⟨96, 100⟩, baseMid := 30, baseLow := -7, failReview := 0 }

/-- The day oracle of the C7 counterexample: daily variance −3, every
customer drawing `draw_c7`. -/
def oracle_c7 : DayOracle :=
  { adChoice := fun _ => 0, variance := -3, customer := fun _ => draw_c7 }

/-- The C7 counterexample state: attraction 12 (so that the clamp at 10 does
not mask the truncation/floor difference) and otherwise the initial state. -/
def state_c7 : SalonState := { initial_state with attraction_level := 12 }

/-! ## Theorems

Helper lemmas first (floor bridges, payment-step shapes, loop frames), then
one theorem per claim with its witness or counterexample. -/

/-- Floor of an integer quotient in `ℚ` is integer Euclidean division
(for a positive denominator). -/
theorem floor_int_div (n d : ℤ) (h : 0 < d) : ⌊(n : ℚ) / (d : ℚ)⌋ = n / d := by
  have h1 : ((d.toNat : ℕ) : ℤ) = d := Int.toNat_of_nonneg h.le
  rw [← h1]
  push_cast
  exact Rat.floor_intCast_div_natCast n d.toNat

/-- For a nonnegative numerator and a positive denominator, `Frac.trunc`
agrees with the mathematical floor of the represented rational. -/
theorem Frac.trunc_eq_floor (a : Frac) (h0 : 0 ≤ a.num) (h : 0 < a.den) :
    a.trunc = ⌊a.toRat⌋ := by
  unfold Frac.trunc Frac.toRat
  rw [if_neg (by omega), floor_int_div a.num a.den h]

/-- `Frac.trunc` of a nonnegative value is nonnegative. -/
theorem Frac.trunc_nonneg (a : Frac) (h0 : 0 ≤ a.num) (h : 0 < a.den) :
    0 ≤ a.trunc := by
  unfold Frac.trunc
  rw [if_neg (by omega)]
  exact Int.ediv_nonneg h0 h.le

/-- Multiplying an embedded integer into a fraction is rational
multiplication. -/
theorem Frac.toRat_mul_ofInt (n : ℤ) (b : Frac) :
    (Frac.mul (Frac.ofInt n) b).toRat = (n : ℚ) * b.toRat := by
  unfold Frac.mul Frac.ofInt Frac.toRat
  push_cast
  ring

theorem make_payment_noop (l : Loan) (amount : ℤ) (h : l.remaining_principal ≤ 0) :
    Loan.make_payment l amount = (l, 0) := by
  unfold Loan.make_payment
  rw [if_pos h]

theorem make_payment_zero_pos (l : Loan) (h1 : 0 < l.remaining_principal)
    (h2 : 0 < l.remaining_days) :
    (Loan.make_payment l 0).1 =
      { l with remaining_principal :=
                 l.remaining_principal - Int.fdiv l.remaining_principal l.remaining_days,
               accrued_interest := 0,
               remaining_days := l.remaining_days - 1 } := by
  have hfd : 0 ≤ Int.fdiv l.remaining_principal l.remaining_days :=
    Int.fdiv_nonneg h1.le h2.le
  have hle : Int.fdiv l.remaining_principal l.remaining_days ≤ l.remaining_principal := by
    rw [Int.fdiv_eq_ediv _ h2.le]
    exact Int.ediv_le_self _ h1.le
  simp only [Loan.make_payment, Loan.accrue_daily_interest, Loan.get_minimum_payment]
  rw [if_neg (by omega : ¬ l.remaining_principal ≤ 0)]
  generalize ((Frac.ofInt l.remaining_principal).mul l.daily_rate).trunc = di
  rw [if_neg (by omega : ¬ (0:ℤ) < 0)]
  rw [if_neg (by omega : ¬ l.remaining_days ≤ 0)]
  rw [if_pos (by omega :
    l.accrued_interest + di ≤
      l.remaining_principal.fdiv l.remaining_days + (l.accrued_interest + di))]
  simp only [Loan.mk.injEq, true_and, and_true]
  rw [show l.remaining_principal.fdiv l.remaining_days + (l.accrued_interest + di) -
        (l.accrued_interest + di) = l.remaining_principal.fdiv l.remaining_days by ring]
  rw [min_eq_left hle]

theorem make_payment_zero_late (l : Loan) (h1 : 0 < l.remaining_principal)
    (h2 : l.remaining_days ≤ 0) :
    (Loan.make_payment l 0).1 =
      { l with remaining_principal := 0,
               accrued_interest := 0,
               remaining_days := l.remaining_days - 1 } := by
  simp only [Loan.make_payment, Loan.accrue_daily_interest, Loan.get_minimum_payment]
  rw [if_neg (by omega : ¬ l.remaining_principal ≤ 0)]
  generalize ((Frac.ofInt l.remaining_principal).mul l.daily_rate).trunc = di
  rw [if_neg (by omega : ¬ (0:ℤ) < 0)]
  rw [if_pos h2]
  rw [if_pos (by omega :
    l.accrued_interest + di ≤ l.remaining_principal + (l.accrued_interest + di))]
  simp only [Loan.mk.injEq, true_and, and_true]
  rw [show l.remaining_principal + (l.accrued_interest + di) - (l.accrued_interest + di) =
        l.remaining_principal by ring]
  rw [min_self]
  omega

theorem payN_noop (l : Loan) (h : l.remaining_principal ≤ 0) : ∀ k, payN l k = l := by
  intro k
  induction k with
  | zero => rfl
  | succ k ih =>
    simp only [payN, make_payment_noop l 0 h]
    exact ih

theorem payN_zero_principal (l : Loan) (hP : l.remaining_principal = 0)
    (hA : l.accrued_interest = 0) (k : ℕ) : sumPA (payN l k) = 0 := by
  rw [payN_noop l (by omega) k]
  unfold sumPA
  omega

theorem drain : ∀ (n : ℕ) (l : Loan), 0 ≤ l.remaining_principal →
    l.accrued_interest = 0 → l.remaining_days ≤ (n : ℤ) → 1 ≤ n →
    sumPA (payN l n) = 0 := by
  intro n
  induction n with
  | zero => intro l _ _ _ h; omega
  | succ n ih =>
    intro l hP hA hD _
    by_cases hP0 : l.remaining_principal ≤ 0
    · rw [payN_noop l hP0]
      unfold sumPA
      omega
    · push_neg at hP0
      by_cases hD0 : l.remaining_days ≤ 0
      · simp only [payN, make_payment_zero_late l hP0 hD0]
        exact payN_zero_principal _ rfl rfl n
      · push_neg at hD0
        simp only [payN, make_payment_zero_pos l hP0 hD0]
        have hle : Int.fdiv l.remaining_principal l.remaining_days ≤ l.remaining_principal := by
          rw [Int.fdiv_eq_ediv _ hD0.le]
          exact Int.ediv_le_self _ hP0.le
        rcases Nat.eq_zero_or_pos n with h0 | h0
        · subst h0
          have hD1 : l.remaining_days = 1 := by omega
          unfold payN sumPA
          simp [hD1, Int.fdiv_one]
        · refine ih _ ?_ rfl ?_ h0
          · simp
            omega
          · simp
            omega

theorem fdiv_ge_one (P D : ℤ) (h1 : 1 ≤ D) (h2 : D ≤ P) : 1 ≤ Int.fdiv P D := by
  rw [Int.fdiv_eq_ediv _ (by omega)]
  rw [Int.le_ediv_iff_mul_le (by omega)]
  omega

theorem fdiv_drop_bound (P D : ℤ) (h1 : 1 ≤ D) (h2 : D ≤ P) :
    D - 1 ≤ P - Int.fdiv P D := by
  have h3 : (0:ℤ) < D := by omega
  rw [Int.fdiv_eq_ediv _ h3.le]
  have hqD : P / D * D ≤ P := Int.ediv_mul_le P (by omega)
  have hq1 : 1 ≤ P / D := by
    rw [Int.le_ediv_iff_mul_le h3]
    omega
  nlinarith [mul_nonneg (by omega : (0:ℤ) ≤ P / D - 1) (by omega : (0:ℤ) ≤ D - 1)]

theorem strict_step (l : Loan) (hA : l.accrued_interest = 0) (h1 : 1 ≤ l.remaining_days)
    (h2 : l.remaining_days ≤ l.remaining_principal) :
    sumPA (Loan.make_payment l 0).1 < sumPA l := by
  have hP : 0 < l.remaining_principal := by omega
  rw [make_payment_zero_pos l hP (by omega)]
  have hq := fdiv_ge_one l.remaining_principal l.remaining_days h1 h2
  unfold sumPA
  simp
  omega

theorem strict_iter : ∀ (k : ℕ) (l : Loan), l.accrued_interest = 0 →
    1 ≤ l.remaining_days → l.remaining_days ≤ l.remaining_principal →
    (k : ℤ) < l.remaining_days →
    sumPA (payN l (k + 1)) < sumPA (payN l k) := by
  intro k
  induction k with
  | zero =>
    intro l hA h1 h2 _
    simpa [payN] using strict_step l hA h1 h2
  | succ k ih =>
    intro l hA h1 h2 hk
    have hD2 : 2 ≤ l.remaining_days := by omega
    have hP : 0 < l.remaining_principal := by omega
    have hdrop := fdiv_drop_bound l.remaining_principal l.remaining_days h1 h2
    simp only [payN, make_payment_zero_pos l hP (by omega : 0 < l.remaining_days)]
    refine ih _ rfl ?_ ?_ ?_
    · simp
      omega
    · simp
      omega
    · simp
      omega

theorem noninc_step (l : Loan) (hP : 0 ≤ l.remaining_principal)
    (hA : 0 ≤ l.accrued_interest) :
    sumPA (Loan.make_payment l 0).1 ≤ sumPA l ∧
    0 ≤ (Loan.make_payment l 0).1.remaining_principal ∧
    0 ≤ (Loan.make_payment l 0).1.accrued_interest := by
  by_cases h : l.remaining_principal ≤ 0
  · rw [make_payment_noop l 0 h]
    exact ⟨le_refl _, hP, hA⟩
  · push_neg at h
    by_cases hD : l.remaining_days ≤ 0
    · rw [make_payment_zero_late l h hD]
      unfold sumPA
      simp
      omega
    · push_neg at hD
      have hfd : 0 ≤ Int.fdiv l.remaining_principal l.remaining_days :=
        Int.fdiv_nonneg h.le hD.le
      have hle : Int.fdiv l.remaining_principal l.remaining_days ≤ l.remaining_principal := by
        rw [Int.fdiv_eq_ediv _ hD.le]
        exact Int.ediv_le_self _ h.le
      rw [make_payment_zero_pos l h hD]
      unfold sumPA
      simp
      omega

theorem payN_inv : ∀ (k : ℕ) (l : Loan), 0 ≤ l.remaining_principal →
    0 ≤ l.accrued_interest →
    0 ≤ (payN l k).remaining_principal ∧ 0 ≤ (payN l k).accrued_interest := by
  intro k
  induction k with
  | zero => intro l hP hA; exact ⟨hP, hA⟩
  | succ k ih =>
    intro l hP hA
    simp only [payN]
    exact ih _ (noninc_step l hP hA).2.1 (noninc_step l hP hA).2.2

theorem noninc_iter : ∀ (k : ℕ) (l : Loan), 0 ≤ l.remaining_principal →
    0 ≤ l.accrued_interest →
    sumPA (payN l (k + 1)) ≤ sumPA (payN l k) := by
  intro k
  induction k with
  | zero =>
    intro l hP hA
    simpa [payN] using (noninc_step l hP hA).1
  | succ k ih =>
    intro l hP hA
    simp only [payN]
    exact ih _ (noninc_step l hP hA).2.1 (noninc_step l hP hA).2.2

/-- C5 (confirmed): `makePayment(amount)` on a loan with a nonnegatively
valued daily rate, nonnegative accrued interest and `amount ≥ 0` behaves
exactly as specified: a no-op returning 0 when already paid off; otherwise
it accrues `floor(remainingPrincipal × dailyRate)`, pays
`actual = max(minimumPayment(), amount)`, allocates interest-first with the
principal part capped at the remaining principal, decrements `remainingDays`
by 1 in every case, and returns interest paid plus principal paid, with
`minimumPayment()` as specified in both day regimes
(see `make_payment_spec`). -/
theorem make_payment_matches_spec (l : Loan) (amount : ℤ)
    (hr1 : 0 ≤ l.daily_rate.num) (hr2 : 0 < l.daily_rate.den)
    (hA : 0 ≤ l.accrued_interest) (ha : 0 ≤ amount) :
    Loan.make_payment l amount = make_payment_spec l amount := by
  by_cases hP : l.remaining_principal ≤ 0
  · rw [make_payment_noop l amount hP]
    unfold make_payment_spec
    rw [if_pos (show Loan.is_paid_off l = true by simp [Loan.is_paid_off]; omega)]
  · push_neg at hP
    have hacc : ((Frac.ofInt l.remaining_principal).mul l.daily_rate).trunc =
        ⌊(l.remaining_principal : ℚ) * l.daily_rate.toRat⌋ := by
      rw [← Frac.toRat_mul_ofInt]
      exact Frac.trunc_eq_floor _
        (by simp [Frac.mul, Frac.ofInt]; exact mul_nonneg hP.le hr1)
        (by simp [Frac.mul, Frac.ofInt]; omega)
    have hdi0 : 0 ≤ ((Frac.ofInt l.remaining_principal).mul l.daily_rate).trunc :=
      Frac.trunc_nonneg _
        (by simp [Frac.mul, Frac.ofInt]; exact mul_nonneg hP.le hr1)
        (by simp [Frac.mul, Frac.ofInt]; omega)
    rw [hacc] at hdi0
    unfold Loan.make_payment make_payment_spec Loan.accrue_daily_interest
      Loan.get_minimum_payment
    simp only [Loan.is_paid_off, decide_eq_true_eq]
    rw [hacc]
    generalize ⌊(l.remaining_principal : ℚ) * l.daily_rate.toRat⌋ = di at hdi0 ⊢
    rcases le_or_lt l.remaining_days 0 with hD | hD
    · split_ifs <;>
        first
          | omega
          | (simp only [Prod.mk.injEq, Loan.mk.injEq, true_and, and_true]; omega)
    · have hfd : 0 ≤ Int.fdiv l.remaining_principal l.remaining_days :=
        Int.fdiv_nonneg hP.le hD.le
      split_ifs <;>
        first
          | omega
          | (simp only [Prod.mk.injEq, Loan.mk.injEq, true_and, and_true]; omega)

/-- Witness for C5: the theorem applied to a fresh 10000-principal `starter`
loan and a payment of 3, every hypothesis discharged at the concrete
input. -/
theorem make_payment_matches_spec_w :
    0 ≤ loan_w.daily_rate.num ∧ 0 < loan_w.daily_rate.den ∧
    0 ≤ loan_w.accrued_interest ∧ (0 : ℤ) ≤ 3 ∧
    Loan.make_payment loan_w 3 = make_payment_spec loan_w 3 :=
  ⟨by decide, by decide, by decide, by decide,
   make_payment_matches_spec loan_w 3 (by decide) (by decide) (by decide) (by decide)⟩

/-- C4 (corrected, amended): for every fresh loan with positive principal
and positive term, repeated minimum payments (i) never increase
`remainingPrincipal + accruedInterest`, (ii) bring it to 0 within `termDays`
calls, (iii) strictly decrease it on every one of the first `termDays` calls
provided `principal ≥ termDays`, and (iv) `isPaidOff()` holds exactly when
the remaining principal is 0.  The unconditional strict decrease asserted by
the original claim fails when `principal < termDays`
(see `loan_amortization_cex`). -/
theorem loan_amortization_amended (name : String) (principal : ℤ) (rate : Frac)
    (term : ℤ) (h1 : 0 < principal) (h2 : 1 ≤ term) :
    (∀ k : ℕ, sumPA (payN (mkLoan name principal rate term) (k + 1)) ≤
        sumPA (payN (mkLoan name principal rate term) k)) ∧
    sumPA (payN (mkLoan name principal rate term) term.toNat) = 0 ∧
    (term ≤ principal → ∀ k : ℕ, (k : ℤ) < term →
        sumPA (payN (mkLoan name principal rate term) (k + 1)) <
        sumPA (payN (mkLoan name principal rate term) k)) ∧
    (∀ k : ℕ, Loan.is_paid_off (payN (mkLoan name principal rate term) k) = true ↔
        (payN (mkLoan name principal rate term) k).remaining_principal = 0) := by
  refine ⟨?_, ?_, ?_, ?_⟩
  · intro k
    exact noninc_iter k _ (show (0:ℤ) ≤ principal by omega) (le_refl 0)
  · exact drain term.toNat _ (show (0:ℤ) ≤ principal by omega) rfl
      (show term ≤ ((term.toNat : ℕ) : ℤ) by omega) (by omega)
  · intro hle k hk
    exact strict_iter k _ rfl (show (1:ℤ) ≤ term by omega)
      (show term ≤ principal from hle) (show (k:ℤ) < term from hk)
  · intro k
    have hinv := (payN_inv k (mkLoan name principal rate term)
      (show (0:ℤ) ≤ principal by omega) (le_refl 0)).1
    simp only [Loan.is_paid_off, decide_eq_true_eq]
    omega

/-- Counterexample for C4: the fresh loan (principal 3, 0.5% daily rate,
term 5) is created with positive principal and term, yet its first minimum
payment leaves `remainingPrincipal + accruedInterest` unchanged at 3: the
sum does not strictly decrease on every call until reaching 0. -/
theorem loan_amortization_cex :
    0 < loan_c4.principal ∧ (1 : ℤ) ≤ loan_c4.term_days ∧
    sumPA (payN loan_c4 0) = 3 ∧ sumPA (payN loan_c4 1) = 3 ∧ (3 : ℤ) ≠ 0 := by
  decide

/-- Witness for C4: the amended theorem applied to a fresh 10000-principal
`starter` loan, hypotheses discharged at the concrete input. -/
theorem loan_amortization_w :
    (0 : ℤ) < 10000 ∧ (1 : ℤ) ≤ 5 ∧
    sumPA (payN (mkLoan "starter" 10000 ⟨5, 1000⟩ 5) (5 : ℤ).toNat) = 0 ∧
    sumPA (payN (mkLoan "starter" 10000 ⟨5, 1000⟩ 5) (0 + 1)) <
      sumPA (payN (mkLoan "starter" 10000 ⟨5, 1000⟩ 5) 0) :=
  ⟨by decide, by decide,
   (loan_amortization_amended "starter" 10000 ⟨5, 1000⟩ 5 (by decide) (by decide)).2.1,
   (loan_amortization_amended "starter" 10000 ⟨5, 1000⟩ 5 (by decide) (by decide)).2.2.1
     (by decide) 0 (by decide)⟩

/-- C10 (corrected, amended): for every loan with positive remaining
principal and any payment amount, `makePayment` leaves `accruedInterest` at
exactly 0 — the partial-interest branch is unreachable because
`minimumPayment()` is always at least the accrued interest.  The original
claim's precondition (`remainingPrincipal ≥ 0`) also admits the paid-off
no-op case, where leftover accrued interest survives the call: see
`payment_resets_interest_cex`. -/
theorem payment_resets_interest_amended (l : Loan) (amount : ℤ)
    (h : 0 < l.remaining_principal) :
    (Loan.make_payment l amount).1.accrued_interest = 0 ∧
    l.accrued_interest ≤ Loan.get_minimum_payment l := by
  constructor
  · simp only [Loan.make_payment, Loan.accrue_daily_interest, Loan.get_minimum_payment]
    rw [if_neg (by omega : ¬ l.remaining_principal ≤ 0)]
    generalize ((Frac.ofInt l.remaining_principal).mul l.daily_rate).trunc = di
    rcases le_or_lt l.remaining_days 0 with hD | hD
    · rw [if_pos hD]
      by_cases hAm : 0 < amount
      · rw [if_pos hAm]
        rw [if_pos (by omega : l.accrued_interest + di ≤
          (l.remaining_principal + (l.accrued_interest + di)) ⊔ amount)]
      · rw [if_neg hAm]
        rw [if_pos (by omega : l.accrued_interest + di ≤
          l.remaining_principal + (l.accrued_interest + di))]
    · have hfd : 0 ≤ Int.fdiv l.remaining_principal l.remaining_days :=
        Int.fdiv_nonneg h.le hD.le
      rw [if_neg (by omega : ¬ l.remaining_days ≤ 0)]
      by_cases hAm : 0 < amount
      · rw [if_pos hAm]
        rw [if_pos (by omega : l.accrued_interest + di ≤
          (l.remaining_principal.fdiv l.remaining_days + (l.accrued_interest + di)) ⊔ amount)]
      · rw [if_neg hAm]
        rw [if_pos (by omega : l.accrued_interest + di ≤
          l.remaining_principal.fdiv l.remaining_days + (l.accrued_interest + di))]
  · unfold Loan.get_minimum_payment
    rcases le_or_lt l.remaining_days 0 with hD | hD
    · rw [if_pos hD]
      omega
    · have hfd : 0 ≤ Int.fdiv l.remaining_principal l.remaining_days :=
        Int.fdiv_nonneg h.le hD.le
      rw [if_neg (by omega : ¬ l.remaining_days ≤ 0)]
      omega

/-- Counterexample for C10: a loan with remaining principal 0 and accrued
interest 5 satisfies the claim's nonnegativity preconditions, but
`makePayment(0)` is a no-op on it, so its accrued interest is still 5 (not
0) after the call returns. -/
theorem payment_resets_interest_cex :
    0 ≤ loan_c10.remaining_principal ∧ 0 ≤ loan_c10.accrued_interest ∧
    (Loan.make_payment loan_c10 0).1.accrued_interest = 5 ∧
    ¬ (Loan.make_payment loan_c10 0).1.accrued_interest = 0 := by
  decide

/-- Witness for C10: the amended theorem applied to a fresh 10000-principal
loan and payment amount 0. -/
theorem payment_resets_interest_w :
    0 < loan_w.remaining_principal ∧
    (Loan.make_payment loan_w 0).1.accrued_interest = 0 ∧
    loan_w.accrued_interest ≤ Loan.get_minimum_payment loan_w :=
  ⟨by decide,
   (payment_resets_interest_amended loan_w 0 (by decide)).1,
   (payment_resets_interest_amended loan_w 0 (by decide)).2⟩

/-- C6 (corrected, amended): an ad instance with `duration=3, decay=5,
boost=15` contributes 15 to `totalAdBoost` at purchase time on day N, then
15, 10 and 5 through the decay step of days N+1, N+2 and N+3 respectively,
and is removed by day N+3's decay step, so it is absent (contributing
nothing) from day N+4 onward.  The original claim's schedule (15, 10, 5 on
days N..N+2, absent by N+3) omits the purchase-day contribution of the
still-undecayed boost: see `ad_lifecycle_cex`. -/
theorem ad_lifecycle_amended :
    purchase_ad "x" 3 15 [] 0 = ([⟨"x", 3, 15⟩], 15) ∧
    ad_decay_step (fun _ => 5) [⟨"x", 3, 15⟩] = ([⟨"x", 2, 10⟩], 15) ∧
    ad_decay_step (fun _ => 5) [⟨"x", 2, 10⟩] = ([⟨"x", 1, 5⟩], 10) ∧
    ad_decay_step (fun _ => 5) [⟨"x", 1, 5⟩] = ([], 5) := by
  decide

/-- Counterexample for C6: on day N+1 the freshly purchased instance
(remaining 3, boost 15) contributes 15 — not the 10 the claim schedules for
day N+1 — and at the start of day N+3 the ad is still active and contributes
5, contradicting "absent by day N+3". -/
theorem ad_lifecycle_cex :
    (ad_decay_step (fun _ => 5) [⟨"x", 3, 15⟩]).2 = 15 ∧
    (ad_decay_step (fun _ => 5) [⟨"x", 3, 15⟩]).2 ≠ 10 ∧
    (ad_decay_step (fun _ => 5)
      ((ad_decay_step (fun _ => 5) [⟨"x", 3, 15⟩]).1)).1 ≠ [] ∧
    (ad_decay_step (fun _ => 5)
      ((ad_decay_step (fun _ => 5)
        ((ad_decay_step (fun _ => 5) [⟨"x", 3, 15⟩]).1)).1)).2 = 5 := by
  decide

/-- C7 (corrected, amended): after `simulate_day`, the attraction level
equals the old attraction level plus `int((avgReview/5) × grade)` —
truncation toward zero, which differs from the mathematical floor for
negative averages — clamped to `[10, attractionCap(grade)]`, where
`avgReview` is the reported review total of the day divided by the reported
number of customers actually served (0 if none); `feedback_update` is
exactly that truncating formula.  The claim's floor-based formula disagrees
on negative averages: see `feedback_truncation_cex`. -/
theorem feedback_truncation_amended (cfg : SimConfig) (o : DayOracle) (s : SalonState) :
    (simulate_day cfg o s).1.attraction_level =
      feedback_update s.attraction_level s.grade
        ((GRADE_CONFIG s.grade).attraction_cap)
        ((simulate_day cfg o s).2.today_review)
        ((simulate_day cfg o s).2.customers) := rfl

/-- Counterexample for C7: a concrete simulated day (grade 1, attraction 12,
one served customer with review total −7) where the code's truncation gives
`12 + int(-1.4) = 11` while the claim's floor formula gives
`12 + ⌊-1.4⌋ = 10`. -/
theorem feedback_truncation_cex :
    (simulate_day cfg_noloans oracle_c7 state_c7).2.today_review = -7 ∧
    (simulate_day cfg_noloans oracle_c7 state_c7).2.customers = 1 ∧
    state_c7.attraction_level = 12 ∧ state_c7.grade = 1 ∧
    (GRADE_CONFIG state_c7.grade).attraction_cap = 100 ∧
    (simulate_day cfg_noloans oracle_c7 state_c7).1.attraction_level = 11 ∧
    feedback_update_floor 12 1 100 (-7) 1 = 10 ∧
    (11 : ℤ) ≠ 10 := by
  refine ⟨by decide, by decide, by decide, by decide, by decide, by decide, ?_, by decide⟩
  unfold feedback_update_floor
  norm_num

theorem simulate_day_attraction_eq (cfg : SimConfig) (o : DayOracle) (s : SalonState) :
    (simulate_day cfg o s).1.attraction_level =
      feedback_update s.attraction_level s.grade
        ((GRADE_CONFIG s.grade).attraction_cap)
        ((simulate_day cfg o s).2.today_review)
        ((simulate_day cfg o s).2.customers) := rfl

theorem simulate_day_grade_eq (cfg : SimConfig) (o : DayOracle) (s : SalonState) :
    (simulate_day cfg o s).1.grade = s.grade := rfl

theorem feedback_update_bound (a : ℤ) (g : ℕ) (cap r : ℤ) (n : ℕ) (h : 10 ≤ cap) :
    10 ≤ feedback_update a g cap r n ∧ feedback_update a g cap r n ≤ cap := by
  simp only [feedback_update]
  omega

theorem try_upgrade_attraction_grade (cfg : SimConfig) (s : SalonState) :
    (try_upgrade cfg s).2.2.attraction_level = s.attraction_level ∧
    ((try_upgrade cfg s).2.2.grade = s.grade ∨
      ((try_upgrade cfg s).2.2.grade = s.grade + 1 ∧ s.grade < MAX_GRADE)) := by
  simp only [try_upgrade, apply_upgrade]
  split_ifs with h1 h2 h3 h4 h5 h6 <;>
    first
      | exact ⟨rfl, Or.inl rfl⟩
      | exact ⟨rfl, Or.inr ⟨rfl, by omega⟩⟩

theorem grade_cap_ge_ten (g : ℕ) (h1 : 1 ≤ g) (h2 : g ≤ 7) :
    10 ≤ (GRADE_CONFIG g).attraction_cap := by
  interval_cases g <;> decide

theorem grade_cap_mono (g : ℕ) (h1 : 1 ≤ g) (h2 : g < 7) :
    (GRADE_CONFIG g).attraction_cap ≤ (GRADE_CONFIG (g + 1)).attraction_cap := by
  interval_cases g <;> decide

theorem reachable_inv (s : SalonState) (h : Reachable s) :
    1 ≤ s.grade ∧ s.grade ≤ 7 ∧ 10 ≤ s.attraction_level ∧
    s.attraction_level ≤ (GRADE_CONFIG s.grade).attraction_cap := by
  induction h with
  | init => exact ⟨by decide, by decide, by decide, by decide⟩
  | day cfg o s hs ih =>
    obtain ⟨h1, h2, _, _⟩ := ih
    have hcap := grade_cap_ge_ten s.grade h1 h2
    have hb := feedback_update_bound s.attraction_level s.grade
      ((GRADE_CONFIG s.grade).attraction_cap)
      ((simulate_day cfg o s).2.today_review)
      ((simulate_day cfg o s).2.customers) hcap
    have hg := simulate_day_grade_eq cfg o s
    have hatt := simulate_day_attraction_eq cfg o s
    refine ⟨by rw [hg]; omega, by rw [hg]; omega, ?_, ?_⟩
    · rw [hatt]
      exact hb.1
    · rw [hg, hatt]
      exact hb.2
  | upgrade cfg s hs ih =>
    obtain ⟨h1, h2, h3, h4⟩ := ih
    obtain ⟨hatt, hg⟩ := try_upgrade_attraction_grade cfg s
    have hmax : MAX_GRADE = 7 := rfl
    rcases hg with hg | ⟨hg, hlt⟩
    · refine ⟨by rw [hg]; omega, by rw [hg]; omega, by rw [hatt]; omega, ?_⟩
      rw [hg, hatt]
      exact h4
    · have hmono := grade_cap_mono s.grade h1 (by omega)
      refine ⟨by rw [hg]; omega, by rw [hg]; omega, by rw [hatt]; omega, ?_⟩
      rw [hg, hatt]
      omega

/-- C9 (confirmed): every state reachable from the initial simulator state
by any interleaving of simulated days and upgrade attempts keeps
`attractionLevel` within `[10, attractionCap(grade)]`: the bound holds
initially, `simulate_day` clamps the updated value into the current grade's
range, and a grade advance never moves the level outside the new (larger)
bound. -/
theorem attraction_level_bounded (s : SalonState) (h : Reachable s) :
    10 ≤ s.attraction_level ∧
    s.attraction_level ≤ (GRADE_CONFIG s.grade).attraction_cap :=
  ⟨(reachable_inv s h).2.2.1, (reachable_inv s h).2.2.2⟩

/-- Witness for C9: the theorem applied to the initial state, whose
reachability is the base constructor. -/
theorem attraction_level_bounded_w :
    10 ≤ initial_state.attraction_level ∧
    initial_state.attraction_level ≤
      (GRADE_CONFIG initial_state.grade).attraction_cap :=
  attraction_level_bounded initial_state Reachable.init

theorem upgrade_tool_cost_base_eq_zero (g : ℕ) : upgrade_tool_cost_base g = 0 := by
  unfold upgrade_tool_cost_base
  split_ifs <;> rfl

theorem finance_fold_frame (ps : List (String × LoanCfg)) (g : ℕ) (tc : ℤ)
    (ats : List String) (st : FinanceState) :
    ∃ new : List Loan,
      (ps.foldl (finance_step g tc ats) st).loans = st.loans ++ new ∧
      (ps.foldl (finance_step g tc ats) st).money =
        st.money + (new.map (fun l => l.principal)).sum ∧
      (ps.foldl (finance_step g tc ats) st).money -
          (ps.foldl (finance_step g tc ats) st).borrowed = st.money - st.borrowed := by
  induction ps generalizing st with
  | nil => exact ⟨[], by simp, by simp, rfl⟩
  | cons p ps ih =>
    simp only [List.foldl_cons]
    have hstep : finance_step g tc ats st p = st ∨
        finance_step g tc ats st p = { st with done := true } ∨
        finance_step g tc ats st p =
          { st with money := st.money + p.2.max_amount,
                    borrowed := st.borrowed + p.2.max_amount,
                    loans := st.loans ++
                      [mkLoan p.1 p.2.max_amount p.2.daily_rate p.2.term_days],
                    taken := st.taken ++ [⟨p.1, p.2.max_amount, p.2.term_days⟩] } := by
      unfold finance_step
      split_ifs <;> simp
    rcases hstep with h | h | h <;> rw [h]
    · exact ih st
    · exact ih { st with done := true }
    · obtain ⟨new, hl, hm, hb⟩ := ih { st with
        money := st.money + p.2.max_amount,
        borrowed := st.borrowed + p.2.max_amount,
        loans := st.loans ++ [mkLoan p.1 p.2.max_amount p.2.daily_rate p.2.term_days],
        taken := st.taken ++ [⟨p.1, p.2.max_amount, p.2.term_days⟩] }
      refine ⟨mkLoan p.1 p.2.max_amount p.2.daily_rate p.2.term_days :: new, ?_, ?_, ?_⟩
      · rw [hl]
        simp
      · rw [hm]
        simp only [List.map_cons, List.sum_cons, mkLoan]
        ring
      · rw [hb]
        ring

/-- C3 (confirmed): whenever `try_upgrade` returns not-upgraded, no loan
info is returned and the state is unchanged except that loans opened during
a failed financing attempt (and their principal, already added to the
money balance) remain in effect; with loans disabled every failure leaves
the state exactly unchanged, and in particular with `money = 0`, loans
disabled and a positive total cost the call returns `(false, none)` with
the state untouched. -/
theorem try_upgrade_failure_frame (cfg : SimConfig) (s : SalonState) :
    ((try_upgrade cfg s).1 = false →
      (try_upgrade cfg s).2.1 = none ∧
      ∃ new : List Loan,
        (try_upgrade cfg s).2.2 =
          { s with money := s.money + (new.map (fun l => l.principal)).sum,
                   loans := s.loans ++ new }) ∧
    (cfg.use_loans = false → (try_upgrade cfg s).1 = false →
      try_upgrade cfg s = (false, none, s)) ∧
    (s.money = 0 → cfg.use_loans = false →
      (s.grade < MAX_GRADE →
        0 < (GRADE_CONFIG (s.grade + 1)).upgrade_cost +
            upgrade_tool_cost_base (s.grade + 1) * (GRADE_CONFIG (s.grade + 1)).beds) →
      try_upgrade cfg s = (false, none, s)) := by
  have hframe := finance_fold_frame LOAN_CONFIG_SORTED s.grade
    ((GRADE_CONFIG (s.grade + 1)).upgrade_cost +
      upgrade_tool_cost_base (s.grade + 1) * (GRADE_CONFIG (s.grade + 1)).beds)
    ((s.loans.filter (fun l => ¬ Loan.is_paid_off l)).map (fun l => l.loan_type))
    ⟨s.money, s.loans, [], 0, false⟩
  simp only [try_upgrade]
  split_ifs with h1 h2 h3 h4 h5 h6
  · exact ⟨fun _ => ⟨rfl, [], by simp⟩, fun _ _ => rfl, fun _ _ _ => rfl⟩
  · exact ⟨fun _ => ⟨rfl, [], by simp⟩, fun _ _ => rfl, fun _ _ _ => rfl⟩
  · exact ⟨fun _ => ⟨rfl, [], by simp⟩, fun hu _ => absurd h4 (by simp [hu]),
      fun _ hu _ => absurd h4 (by simp [hu])⟩
  · obtain ⟨new, hl, hm, hb⟩ := hframe
    refine ⟨fun _ => ⟨rfl, new, ?_⟩, fun hu _ => absurd h4 (by simp [hu]),
      fun _ hu _ => absurd h4 (by simp [hu])⟩
    rw [hl, hm]
  · exact ⟨fun hfalse => absurd hfalse (by simp), fun hu _ => absurd h4 (by simp [hu]),
      fun _ hu _ => absurd h4 (by simp [hu])⟩
  · exact ⟨fun _ => ⟨rfl, [], by simp⟩, fun _ _ => rfl, fun _ _ _ => rfl⟩
  · refine ⟨fun hfalse => absurd hfalse (by simp),
      fun _ hfalse => absurd hfalse (by simp), fun hm0 _ htot => ?_⟩
    exfalso
    have := htot (by omega)
    omega

/-- C1 (confirmed): when the grade is below the maximum and the star
requirement of the next grade is met, `try_upgrade` compares the money
balance against `upgradeCost(next) + toolCost(next) × beds(next)` (where the
tool-cost lookup of the next grade in the string-keyed `TOOL_CONFIG` yields
0) and, on a successful upgrade, decreases money by exactly that total —
both in the cash path and, relative to the post-borrowing balance, in the
financed path. -/
theorem try_upgrade_total_cost (cfg : SimConfig) (s : SalonState)
    (hg : s.grade < MAX_GRADE)
    (hs : (GRADE_CONFIG (s.grade + 1)).required_stars ≤ s.star_level) :
    ((GRADE_CONFIG (s.grade + 1)).upgrade_cost +
        upgrade_tool_cost_base (s.grade + 1) * (GRADE_CONFIG (s.grade + 1)).beds ≤
          s.money →
      (try_upgrade cfg s).1 = true ∧ (try_upgrade cfg s).2.1 = none ∧
      (try_upgrade cfg s).2.2.money =
        s.money - ((GRADE_CONFIG (s.grade + 1)).upgrade_cost +
          upgrade_tool_cost_base (s.grade + 1) * (GRADE_CONFIG (s.grade + 1)).beds)) ∧
    (s.money < (GRADE_CONFIG (s.grade + 1)).upgrade_cost +
        upgrade_tool_cost_base (s.grade + 1) * (GRADE_CONFIG (s.grade + 1)).beds →
      cfg.use_loans = false → (try_upgrade cfg s).1 = false) ∧
    (∀ info : LoanInfo, (try_upgrade cfg s).2.1 = some info →
      (try_upgrade cfg s).1 = true ∧
      (try_upgrade cfg s).2.2.money =
        s.money + info.total - ((GRADE_CONFIG (s.grade + 1)).upgrade_cost +
          upgrade_tool_cost_base (s.grade + 1) * (GRADE_CONFIG (s.grade + 1)).beds)) := by
  have hframe := finance_fold_frame LOAN_CONFIG_SORTED s.grade
    ((GRADE_CONFIG (s.grade + 1)).upgrade_cost +
      upgrade_tool_cost_base (s.grade + 1) * (GRADE_CONFIG (s.grade + 1)).beds)
    ((s.loans.filter (fun l => ¬ Loan.is_paid_off l)).map (fun l => l.loan_type))
    ⟨s.money, s.loans, [], 0, false⟩
  have hk : (⟨s.money, s.loans, [], 0, false⟩ : FinanceState).money = s.money := rfl
  have hl0 : (⟨s.money, s.loans, [], 0, false⟩ : FinanceState).borrowed = 0 := rfl
  simp only [try_upgrade, apply_upgrade]
  split_ifs with h1 h2 h3 h4 h5 h6
  · omega
  · omega
  · exact ⟨fun hafford => absurd hafford (by omega), fun _ _ => rfl,
      fun info hinfo => absurd hinfo (by simp)⟩
  · exact ⟨fun hafford => absurd hafford (by omega),
      fun _ hu => absurd h4 (by simp [hu]),
      fun info hinfo => absurd hinfo (by simp)⟩
  · obtain ⟨new, hl, hm, hb⟩ := hframe
    refine ⟨fun hafford => absurd hafford (by omega),
      fun _ hu => absurd h4 (by simp [hu]), fun info hinfo => ⟨rfl, ?_⟩⟩
    have h7 := hinfo
    simp only [Option.some.injEq] at h7
    have htot : info.total =
        (LOAN_CONFIG_SORTED.foldl (finance_step s.grade
            ((GRADE_CONFIG (s.grade + 1)).upgrade_cost +
              upgrade_tool_cost_base (s.grade + 1) * (GRADE_CONFIG (s.grade + 1)).beds)
            ((s.loans.filter (fun l => ¬ Loan.is_paid_off l)).map (fun l => l.loan_type)))
          ⟨s.money, s.loans, [], 0, false⟩).borrowed := by
      rw [← h7]
    dsimp only
    omega
  · exact ⟨fun hafford => absurd hafford (by omega), fun _ _ => rfl,
      fun info hinfo => absurd hinfo (by simp)⟩
  · refine ⟨fun _ => ⟨rfl, rfl, ?_⟩, fun hlt _ => absurd hlt (by omega),
      fun info hinfo => absurd hinfo (by simp)⟩
    dsimp only
    omega

/-- C8 (corrected, amended): on every successful `try_upgrade`, no staff
member is removed: every existing member's rank is set in place to the new
grade's rank from the grade→rank table (which can be a demotion — the
initial REGULAR member becomes STUDENT on the 1→2 upgrade, see
`upgrade_staff_cex`) and new members at that rank are appended until the
roster reaches `staffSlots(next)` (whenever the roster does not already
exceed that count, which holds in every reachable state). -/
theorem upgrade_staff_amended (cfg : SimConfig) (s : SalonState)
    (h : (try_upgrade cfg s).1 = true) :
    (try_upgrade cfg s).2.2.staff =
      s.staff.map (fun st => { st with rank := staff_rank_by_grade (s.grade + 1) }) ++
        List.replicate ((GRADE_CONFIG (s.grade + 1)).staff_slots - s.staff.length)
          ⟨staff_rank_by_grade (s.grade + 1)⟩ ∧
    (try_upgrade cfg s).2.2.staff.length =
      max ((GRADE_CONFIG (s.grade + 1)).staff_slots) s.staff.length ∧
    (s.staff.length ≤ (GRADE_CONFIG (s.grade + 1)).staff_slots →
      (try_upgrade cfg s).2.2.staff.length = (GRADE_CONFIG (s.grade + 1)).staff_slots) := by
  simp only [try_upgrade, apply_upgrade] at h ⊢
  split_ifs at h ⊢
  · refine ⟨by simp, ?_, ?_⟩
    · simp [List.length_append, List.length_map, List.length_replicate]
      omega
    · intro hle
      simp [List.length_append, List.length_map, List.length_replicate]
      omega
  · refine ⟨by simp, ?_, ?_⟩
    · simp [List.length_append, List.length_map, List.length_replicate]
      omega
    · intro hle
      simp [List.length_append, List.length_map, List.length_replicate]
      omega

/-- Witness for C1: the theorem applied to the grade-1 state with 5 stars
and exactly the 5000 the G2 upgrade costs. -/
theorem try_upgrade_total_cost_w :
    state_up1.grade < MAX_GRADE ∧
    (GRADE_CONFIG (state_up1.grade + 1)).required_stars ≤ state_up1.star_level ∧
    (GRADE_CONFIG (state_up1.grade + 1)).upgrade_cost +
      upgrade_tool_cost_base (state_up1.grade + 1) *
        (GRADE_CONFIG (state_up1.grade + 1)).beds ≤ state_up1.money ∧
    ((try_upgrade cfg_noloans state_up1).1 = true ∧
      (try_upgrade cfg_noloans state_up1).2.1 = none ∧
      (try_upgrade cfg_noloans state_up1).2.2.money =
        state_up1.money - ((GRADE_CONFIG (state_up1.grade + 1)).upgrade_cost +
          upgrade_tool_cost_base (state_up1.grade + 1) *
            (GRADE_CONFIG (state_up1.grade + 1)).beds)) :=
  ⟨by decide, by decide, by decide,
   (try_upgrade_total_cost cfg_noloans state_up1 (by decide) (by decide)).1 (by decide)⟩

/-- Witness for C3: the theorem applied to the initial state (1 star, below
the 5 required for G2) with financing disabled: the call fails and returns
the state exactly unchanged. -/
theorem try_upgrade_failure_frame_w :
    cfg_noloans.use_loans = false ∧
    (try_upgrade cfg_noloans initial_state).1 = false ∧
    try_upgrade cfg_noloans initial_state = (false, none, initial_state) :=
  ⟨by decide, by decide,
   (try_upgrade_failure_frame cfg_noloans initial_state).2.1 (by decide) (by decide)⟩

/-- C2 (code bug): evaluation of `try_upgrade` at the failing input.  At
grade 3 with 15 stars, 25000 money and one unpaid `expert` loan, financing
for the 80000 G4 upgrade borrows `business` (50000, bringing money to
75000) and then stops — the break condition `money + total_borrowed ≥
total_cost` double-counts the borrowed principal (75000 + 50000 ≥ 80000)
— and the upgrade fails with money 75000 < 80000, even though `starter`
(10000) was eligible and unborrowed, a loan slot was free, and borrowing it
would have reached 85000 ≥ 80000.  The `needed = total_cost - money` value
the source computes for this purpose is never used. -/
theorem financing_early_exit_eval :
    try_upgrade cfg_loans state_c2 = (false, none, state_c2_after) ∧
    state_c2.money = 25000 ∧
    (GRADE_CONFIG 4).upgrade_cost +
      upgrade_tool_cost_base 4 * (GRADE_CONFIG 4).beds = 80000 ∧
    state_c2_after.money = 75000 ∧ state_c2_after.money < 80000 ∧
    "starter" ∉ (state_c2_after.loans.filter
      (fun l => ¬ Loan.is_paid_off l)).map (fun l => l.loan_type) ∧
    ((LOAN_CONFIG.lookup "starter").getD ⟨0, ⟨0, 1⟩, 0, 99⟩).grade_req ≤
      state_c2.grade ∧
    (state_c2_after.loans.filter (fun l => ¬ Loan.is_paid_off l)).length <
      MAX_ACTIVE_LOANS ∧
    (80000 : ℤ) ≤ state_c2_after.money +
      ((LOAN_CONFIG.lookup "starter").getD ⟨0, ⟨0, 1⟩, 0, 99⟩).max_amount := by
  decide

/-- Counterexample for C8: upgrading the grade-1 state (whose roster is the
initial REGULAR member) succeeds and rewrites every rank to STUDENT — a rank
decrease, contradicting "promotion meaning a staff member's rank never
decreases across an upgrade". -/
theorem upgrade_staff_cex :
    state_up1.staff.map (fun st => st.rank) = [.regular] ∧
    (try_upgrade cfg_noloans state_up1).1 = true ∧
    (try_upgrade cfg_noloans state_up1).2.2.staff.map (fun st => st.rank) =
      [.student, .student, .student, .student, .student] ∧
    StaffRank.val .student < StaffRank.val .regular := by
  decide

/-- Witness for C8: the amended theorem applied to the upgradable grade-1
state. -/
theorem upgrade_staff_w :
    (try_upgrade cfg_noloans state_up1).1 = true ∧
    (try_upgrade cfg_noloans state_up1).2.2.staff.length =
      max ((GRADE_CONFIG (state_up1.grade + 1)).staff_slots)
        state_up1.staff.length :=
  ⟨by decide, (upgrade_staff_amended cfg_noloans state_up1 (by decide)).2.1⟩
